import Mathlib

/-!
Verification of the managed DataHub sub-controller
(`operator/controllers/managed-dh/controller.go`) of the
redhat-et/sap-data-intelligence operator.

The Go code is shallowly embedded: Go channel runtime behaviour (send on an
unbuffered channel, close, the panics mandated by the Go specification) is
made explicit, the `dhController` struct becomes a Lean structure carrying
ghost logs of the watch registrations and informer-factory starts, and each
fallible external call (client construction, `Watch` registration, the
embedded controller's run loop) is driven by an explicit environment so that
every error path of the source is reachable in the model.
-/

namespace SapDiObserver

/-- Go `time.Minute` expressed in nanoseconds (`time.Duration`). -/
def timeMinute : Nat := 60 * 1000000000

/-- Constant `defaultSyncTime = time.Minute` from controller.go. -/
def defaultSyncTime : Nat := timeMinute

/-- Constant `dhSyncTime = time.Minute * 3` from controller.go. -/
def dhSyncTime : Nat := timeMinute * 3

/-- Constant `routeSyncTime = time.Minute * 10` from controller.go. -/
def routeSyncTime : Nat := timeMinute * 10

/-- Constant `coreSyncTime = time.Minute * 10` from controller.go. -/
def coreSyncTime : Nat := timeMinute * 10

/-- A Go channel as far as the controller uses it: `make(chan T)` yields
capacity 0 (unbuffered); `buffered` counts queued elements. -/
structure GoChan where
  closed : Bool
  capacity : Nat
  buffered : Nat
deriving Repr, DecidableEq

/-- `make(chan event.GenericEvent)`: an open, unbuffered channel. -/
def makeChan : GoChan := { closed := false, capacity := 0, buffered := 0 }

/-- Outcome of a Go channel send. -/
inductive SendOutcome where
  | delivered (ch : GoChan)
  | blocked
  | panicked
deriving Repr, DecidableEq

/-- Go send semantics: sending on a closed channel panics; otherwise the value
is handed to a ready receiver, buffered if buffer space remains, and the
sender blocks when the channel is unbuffered (or full) with no receiver. -/
def chanSend (ch : GoChan) (receiverReady : Bool) : SendOutcome :=
  if ch.closed then .panicked
  else if receiverReady then .delivered ch
  else if ch.buffered < ch.capacity then .delivered { ch with buffered := ch.buffered + 1 }
  else .blocked

/-- Outcome of a Go channel close. -/
inductive CloseOutcome where
  | closedOk (ch : GoChan)
  | panicked
deriving Repr, DecidableEq

/-- Go close semantics: closing an already-closed channel panics. -/
def chanClose (ch : GoChan) : CloseOutcome :=
  if ch.closed then .panicked
  else .closedOk { ch with closed := true }

/-- Errors surfaced by the Kubernetes client machinery; `notFound` is the case
recognised by `errors.IsNotFound`. -/
inductive KubeError where
  | notFound
  | other (msg : String)
deriving Repr, DecidableEq

/-- `errors.IsNotFound`. -/
def IsNotFound : KubeError → Bool
  | .notFound => true
  | .other _ => false

/-- The three informer factories built by `manageDhNamespace`: the dynamic
factory for the DataHub GVR, the core (Services/Secrets) factory, and the
OpenShift route factory. -/
inductive InformerFactory where
  | dynamicDh
  | kubeCore
  | route
deriving Repr, DecidableEq

/-- The kinds of event sources the controller watches: the parent-signalling
channel source plus the four informer-backed kinds. -/
inductive WatchKind where
  | obsChannel
  | dataHub
  | service
  | secret
  | route
deriving Repr, DecidableEq

/-- Predicates attached to watch registrations. -/
inductive WatchFilter where
  | all
  | labelSelector (labels : List (String × String))
  | byName (n : String)
deriving Repr, DecidableEq

/-- Label selector attached to the Service watch in `manageDhNamespace`. -/
def vsystemLabels : List (String × String) :=
  [("datahub.sap.com/app-component", "vsystem"), ("datahub.sap.com/app", "vsystem")]

/-- Modelled from the spec: the constant `vsystemCaBundleSecretName` (the name
of the CA-bundle Secret) is declared outside the provided source file; the
spec only requires the Secret watch to filter on equality with it. -/
def vsystemCaBundleSecretName : String := "openssl-ca-bundle.pem"

/-- One `ctrl.Watch` registration: the watched kind, the namespace its
informer factory was scoped to (`none` for the channel source), its filter
predicate, and the resync period of its informer factory (`none` for the
channel source). -/
structure WatchRegistration where
  kind : WatchKind
  ns : Option String
  filter : WatchFilter
  resyncPeriod : Option Nat
deriving Repr, DecidableEq

/-- The `dhController` struct. `cancels`/`cancelsInvoked` count the collected
context-cancel functions and how many have been invoked; `startedFactories`
is a ghost log of every `factory.Start` call in order; `watches` is a ghost
log of every successful `ctrl.Watch` registration; `logs` records error-log
lines. -/
structure dhController where
  chanReconcileObs : GoChan
  cancels : Nat
  cancelsInvoked : Nat
  unstartedFactories : List InformerFactory
  isStarted : Bool
  startedFactories : List InformerFactory
  watches : List WatchRegistration
  logs : List String
deriving Repr, DecidableEq

/-- `(*dhController).startFactories`: a no-op until `isStarted` holds; once
started it starts every pending factory and empties `unstartedFactories`. -/
def dhController.startFactories (c : dhController) : dhController :=
  if !c.isStarted then c
  else { c with
          startedFactories := c.startedFactories ++ c.unstartedFactories,
          unstartedFactories := [] }

/-- Result of a Go call that can return an error or terminate the process:
`NewForConfigOrDie` panics instead of returning its error. -/
inductive GoResult (α : Type) where
  | ok (a : α)
  | err (e : KubeError)
  | panicked (msg : String)
deriving Repr, DecidableEq

/-- Fault-injection environment for the construction path: each field is the
error the corresponding external call would produce, `none` meaning
success. -/
structure ConstructionEnv where
  newUnmanagedErr : Option KubeError
  kubeClientErr : Option KubeError
  routeClientErr : Option KubeError
  dynClientErr : Option KubeError
  chanWatchErr : Option KubeError
  dhWatchErr : Option KubeError
  serviceWatchErr : Option KubeError
  secretWatchErr : Option KubeError
  routeWatchErr : Option KubeError
deriving Repr, DecidableEq

/-- Environment in which every external call succeeds. -/
def cleanEnv : ConstructionEnv :=
  { newUnmanagedErr := none, kubeClientErr := none, routeClientErr := none,
    dynClientErr := none, chanWatchErr := none, dhWatchErr := none,
    serviceWatchErr := none, secretWatchErr := none, routeWatchErr := none }

/-- `(*dhController).manageDhNamespace`. `kubernetes.NewForConfig` errors are
returned; `csroute.NewForConfigOrDie` and `dynamic.NewForConfigOrDie` panic on
failure (the `OrDie` constructors). Factories are appended to
`unstartedFactories` before each `Watch` call, watch failures are returned as
errors, and the trailing `startFactories` call is a no-op because the
controller is not yet started. -/
def dhController.manageDhNamespace (c : dhController) (env : ConstructionEnv)
    (dhNamespace : String) : GoResult dhController :=
  match env.kubeClientErr with
  | some e => .err e
  | none =>
    if env.routeClientErr.isSome then .panicked "csroute.NewForConfigOrDie"
    else if env.dynClientErr.isSome then .panicked "dynamic.NewForConfigOrDie"
    else
      let c1 : dhController := { c with unstartedFactories := c.unstartedFactories ++ [InformerFactory.dynamicDh] }
      match env.dhWatchErr with
      | some e => .err e
      | none =>
        let c2 : dhController := { c1 with watches := c1.watches ++
          [{ kind := .dataHub, ns := some dhNamespace, filter := .all,
             resyncPeriod := some dhSyncTime }] }
        let c3 : dhController := { c2 with unstartedFactories := c2.unstartedFactories ++ [InformerFactory.kubeCore] }
        match env.serviceWatchErr with
        | some e => .err e
        | none =>
          let c4 : dhController := { c3 with watches := c3.watches ++
            [{ kind := .service, ns := some dhNamespace,
               filter := .labelSelector vsystemLabels,
               resyncPeriod := some coreSyncTime }] }
          match env.secretWatchErr with
          | some e => .err e
          | none =>
            let c5 : dhController := { c4 with watches := c4.watches ++
              [{ kind := .secret, ns := some dhNamespace,
                 filter := .byName vsystemCaBundleSecretName,
                 resyncPeriod := some coreSyncTime }] }
            let c6 : dhController := { c5 with unstartedFactories := c5.unstartedFactories ++ [InformerFactory.route] }
            match env.routeWatchErr with
            | some e => .err e
            | none =>
              let c7 : dhController := { c6 with watches := c6.watches ++
                [{ kind := .route, ns := some dhNamespace, filter := .all,
                   resyncPeriod := some routeSyncTime }] }
              .ok c7.startFactories

/-- `NewManagedDhController`: builds the unmanaged controller, creates the
unbuffered notify channel, registers the channel-source watch (collecting the
watch context's cancel function), then wires the namespace watches via
`manageDhNamespace`. Every failure after `NewUnmanaged` invokes the collected
cancel and is returned as an error (or, for the `OrDie` clients, a panic). -/
def NewManagedDhController (env : ConstructionEnv) (dhNamespace : String) :
    GoResult dhController :=
  match env.newUnmanagedErr with
  | some e => .err e
  | none =>
    let ctrl : dhController :=
      { chanReconcileObs := makeChan, cancels := 0, cancelsInvoked := 0,
        unstartedFactories := [], isStarted := false, startedFactories := [],
        watches := [], logs := [] }
    match env.chanWatchErr with
    | some e => .err e
    | none =>
      let ctrl1 : dhController := { ctrl with
        watches := ctrl.watches ++
          [{ kind := .obsChannel, ns := none, filter := .all, resyncPeriod := none }],
        cancels := ctrl.cancels + 1 }
      ctrl1.manageDhNamespace env dhNamespace

/-- Outcome of `ReconcileObs` (a bare channel send). -/
inductive NotifyOutcome where
  | delivered (c : dhController)
  | blocked
  | panicked
deriving Repr, DecidableEq

/-- `(*dhController).ReconcileObs`: an unconditional send of the observed
resource into `chanReconcileObs`. -/
def dhController.ReconcileObs (c : dhController) (receiverReady : Bool) : NotifyOutcome :=
  match chanSend c.chanReconcileObs receiverReady with
  | .delivered ch => .delivered { c with chanReconcileObs := ch }
  | .blocked => .blocked
  | .panicked => .panicked

/-- `(*dhController).Start`: launches the embedded controller's run loop in a
goroutine whose error (`innerRunResult`) is only logged, marks the controller
started, starts the pending factories, collects the new cancel function, and
returns `none` (Go `nil`) unconditionally. -/
def dhController.Start (c : dhController) (innerRunResult : Option KubeError) :
    dhController × Option KubeError :=
  let afterGo :=
    match innerRunResult with
    | some _ =>
      { c with logs := c.logs ++ ["(*dhController).manageDhs: controller terminated"] }
    | none => c
  let started := { afterGo with isStarted := true }
  let started2 := started.startFactories
  ({ started2 with cancels := started2.cancels + 1 }, none)

/-- Outcome of `Stop`. -/
inductive StopOutcome where
  | stopped (c : dhController)
  | panicked
deriving Repr, DecidableEq

/-- `(*dhController).Stop`: closes `chanReconcileObs` (panicking if it is
already closed, per Go close semantics) and invokes every collected cancel
function. -/
def dhController.Stop (c : dhController) : StopOutcome :=
  match chanClose c.chanReconcileObs with
  | .panicked => .panicked
  | .closedOk ch => .stopped { c with chanReconcileObs := ch, cancelsInvoked := c.cancels }

/-- Route sub-spec of the SDIObserver custom resource (`hostname`,
`managementState`); the Go zero value has both fields empty. -/
structure SDIObserverSpecRoute where
  hostname : String
  managementState : String
deriving Repr, DecidableEq

/-- Spec of the SDIObserver custom resource, per the CRD schema. -/
structure SDIObserverSpec where
  sdiNamespace : String
  slcbNamespace : String
  slcbRoute : SDIObserverSpecRoute
  vsystemRoute : SDIObserverSpecRoute
deriving Repr, DecidableEq

/-- The SDIObserver custom resource as the reconciler reads it. -/
structure SdiObserver where
  name : String
  ns : String
  spec : SDIObserverSpec
deriving Repr, DecidableEq

/-- Go zero value `&sdiv1alpha1.SdiObserver{}`. -/
def SdiObserver.zero : SdiObserver :=
  { name := "", ns := "",
    spec := { sdiNamespace := "", slcbNamespace := "",
              slcbRoute := { hostname := "", managementState := "" },
              vsystemRoute := { hostname := "", managementState := "" } } }

/-- `reconcile.Result`; the reconciler always returns its zero value. -/
structure ReconcileResult where
  requeue : Bool
  requeueAfter : Nat
deriving Repr, DecidableEq

/-- Zero value of `reconcile.Result`: no explicit requeue. -/
def ReconcileResult.zero : ReconcileResult := { requeue := false, requeueAfter := 0 }

/-- `(*managedDhReconciler).Reconcile`. `getResult` is the outcome of
`r.client.Get` for the observer; `manageVsystemRoute` (defined in a sibling
package) is passed as a parameter. A `Get` error that is not `notFound`
returns early; otherwise — including the not-found case, where `obs` keeps
its zero value — `err` is overwritten by `manageVsystemRoute` applied to the
observer and its vsystem route sub-spec, and that error is returned alongside
the zero result. -/
def Reconcile (getResult : Except KubeError SdiObserver)
    (manageVsystemRoute : SdiObserver → SDIObserverSpecRoute → Option KubeError) :
    ReconcileResult × Option KubeError :=
  match getResult with
  | .error e =>
    if !(IsNotFound e) then (ReconcileResult.zero, some e)
    else
      let obs := SdiObserver.zero
      (ReconcileResult.zero, manageVsystemRoute obs obs.spec.vsystemRoute)
  | .ok fetched =>
    (ReconcileResult.zero, manageVsystemRoute fetched fetched.spec.vsystemRoute)

/-- The watch registrations accumulated by a successful construction for a
given DataHub namespace, in registration order. -/
def constructedWatches (dhNamespace : String) : List WatchRegistration :=
  [ { kind := .obsChannel, ns := none, filter := .all, resyncPeriod := none },
    { kind := .dataHub, ns := some dhNamespace, filter := .all,
      resyncPeriod := some dhSyncTime },
    { kind := .service, ns := some dhNamespace, filter := .labelSelector vsystemLabels,
      resyncPeriod := some coreSyncTime },
    { kind := .secret, ns := some dhNamespace, filter := .byName vsystemCaBundleSecretName,
      resyncPeriod := some coreSyncTime },
    { kind := .route, ns := some dhNamespace, filter := .all,
      resyncPeriod := some routeSyncTime } ]

/-- The controller state produced by a successful `NewManagedDhController`
run in `cleanEnv`. -/
def constructedCtrl (dhNamespace : String) : dhController :=
  { chanReconcileObs := makeChan, cancels := 1, cancelsInvoked := 0,
    unstartedFactories := [.dynamicDh, .kubeCore, .route], isStarted := false,
    startedFactories := [], watches := constructedWatches dhNamespace, logs := [] }

/-- Helper: in the fault-free environment, construction succeeds and yields
`constructedCtrl`. -/
theorem newManagedDhController_cleanEnv (dhNamespace : String) :
    NewManagedDhController cleanEnv dhNamespace = .ok (constructedCtrl dhNamespace) := rfl

/-- The controller state after the first `Stop` of a freshly constructed
controller for namespace `"sdi"`. -/
def sdiCtrlStopped : dhController :=
  { constructedCtrl "sdi" with
    chanReconcileObs := { closed := true, capacity := 0, buffered := 0 },
    cancelsInvoked := 1 }

/-- C1: the claim states that `ReconcileObs` never blocks the parent
reconciler indefinitely — the notification is dropped with a warning or
handed off through a buffered/asynchronous channel. The code does neither:
the notification channel is created unbuffered (`make(chan ...)`, capacity
0) and `ReconcileObs` performs a bare blocking send, so when no receiver is
consuming the send blocks forever (it is neither delivered nor dropped). -/
theorem reconcileObs_unbuffered_send_blocks :
    (constructedCtrl "sdi").chanReconcileObs.capacity = 0 ∧
    (constructedCtrl "sdi").ReconcileObs false = .blocked := ⟨rfl, rfl⟩

/-- C2: the claim states that `Stop` is idempotent and never panics when
called twice. The code closes `chanReconcileObs` unconditionally, and Go
panics on closing an already-closed channel: the first `Stop` on a freshly
constructed controller succeeds, the second panics. -/
theorem stop_second_call_panics :
    (constructedCtrl "sdi").Stop = .stopped sdiCtrlStopped ∧
    sdiCtrlStopped.Stop = .panicked := ⟨rfl, rfl⟩

/-- C3: the claim states that a send on the already-closed notification
channel is impossible because `Stop` happens-after every in-flight
`ReconcileObs`. The code has no such serialization: in the interleaving
where `Stop` completes before a concurrent `ReconcileObs` performs its send,
the send hits the closed channel and panics. -/
theorem send_after_stop_panics :
    (constructedCtrl "sdi").Stop = .stopped sdiCtrlStopped ∧
    sdiCtrlStopped.ReconcileObs true = .panicked ∧
    sdiCtrlStopped.ReconcileObs false = .panicked := ⟨rfl, rfl, rfl⟩

/-- C4: after a successful construction all three informer factories are
pending and none is started; `startFactories` is a no-op while `isStarted`
is false; the first `Start` starts each factory exactly once and empties
`unstartedFactories`; and further `startFactories` or `Start` calls start
nothing anew. -/
theorem factories_started_exactly_once : ∀ dhNamespace : String,
    NewManagedDhController cleanEnv dhNamespace = .ok (constructedCtrl dhNamespace) ∧
    (constructedCtrl dhNamespace).isStarted = false ∧
    (constructedCtrl dhNamespace).startedFactories = [] ∧
    (constructedCtrl dhNamespace).unstartedFactories =
      [.dynamicDh, .kubeCore, .route] ∧
    (constructedCtrl dhNamespace).startFactories = constructedCtrl dhNamespace ∧
    ((constructedCtrl dhNamespace).Start none).1.startedFactories =
      [.dynamicDh, .kubeCore, .route] ∧
    ((constructedCtrl dhNamespace).Start none).1.unstartedFactories = [] ∧
    (∀ f : InformerFactory,
      (((constructedCtrl dhNamespace).Start none).1.startedFactories.count f) = 1) ∧
    (((constructedCtrl dhNamespace).Start none).1.startFactories).startedFactories =
      [.dynamicDh, .kubeCore, .route] ∧
    ((((constructedCtrl dhNamespace).Start none).1).Start none).1.startedFactories =
      [.dynamicDh, .kubeCore, .route] := by
  intro dhNamespace
  refine ⟨rfl, rfl, rfl, rfl, rfl, rfl, rfl, ?_, rfl, rfl⟩
  intro f
  cases f <;> rfl

/-- C5: a successful construction registers, in the target namespace,
exactly four watches: the DataHub custom resource kind, Services filtered by
the vsystem label selector, Secrets filtered by name equal to the CA-bundle
secret name, and Routes. (The only other registration, the parent
notification channel source, is not scoped to the namespace.) -/
theorem construction_registers_namespace_watches : ∀ dhNamespace : String,
    NewManagedDhController cleanEnv dhNamespace = .ok (constructedCtrl dhNamespace) ∧
    (constructedCtrl dhNamespace).watches.filter (fun w => w.ns == some dhNamespace) =
      [ { kind := .dataHub, ns := some dhNamespace, filter := .all,
          resyncPeriod := some dhSyncTime },
        { kind := .service, ns := some dhNamespace,
          filter := .labelSelector vsystemLabels, resyncPeriod := some coreSyncTime },
        { kind := .secret, ns := some dhNamespace,
          filter := .byName vsystemCaBundleSecretName,
          resyncPeriod := some coreSyncTime },
        { kind := .route, ns := some dhNamespace, filter := .all,
          resyncPeriod := some routeSyncTime } ] := by
  intro dhNamespace
  refine ⟨rfl, ?_⟩
  simp [constructedCtrl, constructedWatches, List.filter]

/-- C6: a not-found error from the `Get` of the observer is swallowed: it is
never the error returned by `Reconcile` (the returned error is exactly the
one produced by `manageVsystemRoute`), the returned result is the zero
result, so the not-found error triggers no requeue; by contrast any other
`Get` error is returned to the caller. -/
theorem reconcile_swallows_notFound :
    ∀ m : SdiObserver → SDIObserverSpecRoute → Option KubeError,
    Reconcile (.error .notFound) m =
      (ReconcileResult.zero, m SdiObserver.zero SdiObserver.zero.spec.vsystemRoute) ∧
    (∀ s : String, Reconcile (.error (.other s)) m =
      (ReconcileResult.zero, some (.other s))) := by
  intro m
  exact ⟨rfl, fun s => rfl⟩

/-- C7: the claim states that every construction failure, including client
construction failure, is returned as an error and never terminates the
process. Watch-registration failures and `kubernetes.NewForConfig` failures
are indeed returned, but the route and dynamic clients are built with the
`NewForConfigOrDie` constructors, which panic the process when the client
cannot be constructed. -/
theorem construction_client_failure_panics :
    NewManagedDhController { cleanEnv with routeClientErr := some (.other "bad config") }
      "sdi" = .panicked "csroute.NewForConfigOrDie" ∧
    NewManagedDhController { cleanEnv with dynClientErr := some (.other "bad config") }
      "sdi" = .panicked "dynamic.NewForConfigOrDie" ∧
    NewManagedDhController { cleanEnv with dhWatchErr := some (.other "watch failed") }
      "sdi" = .err (.other "watch failed") ∧
    NewManagedDhController { cleanEnv with kubeClientErr := some (.other "bad config") }
      "sdi" = .err (.other "bad config") := ⟨rfl, rfl, rfl, rfl⟩

/-- C8 counterexample: the claim states that each watch uses a distinct
resync interval. In fact the Service and Secret watches (core factory) and
the Route watch all use the same 10-minute interval: only the DataHub watch
differs. -/
theorem resync_intervals_not_distinct :
    (constructedCtrl "sdi").watches.map (fun w => (w.kind, w.resyncPeriod)) =
      [ (.obsChannel, none), (.dataHub, some dhSyncTime),
        (.service, some coreSyncTime), (.secret, some coreSyncTime),
        (.route, some routeSyncTime) ] ∧
    coreSyncTime = routeSyncTime := ⟨rfl, rfl⟩

/-- C8 amended: the DataHub watch uses a shorter resync interval (3 minutes)
than the Service/Secret watches and the Route watch, but the intervals are
not all distinct: the core factory and the route factory both resync every
10 minutes. -/
theorem dh_resync_shorter_than_core_and_route :
    dhSyncTime < coreSyncTime ∧ dhSyncTime < routeSyncTime ∧
    coreSyncTime = routeSyncTime ∧
    (constructedCtrl "sdi").watches.map (fun w => w.resyncPeriod) =
      [none, some dhSyncTime, some coreSyncTime, some coreSyncTime,
       some routeSyncTime] := by
  refine ⟨by decide, by decide, rfl, rfl⟩

/-- C9: when the observer `Get` reports not-found, `Reconcile` does not
return early: it behaves exactly as if a zero-valued observer had been
fetched, invoking `manageVsystemRoute` on the zero-valued `SdiObserver` and
its vsystem route sub-spec, and the returned error is exactly the error
produced by `manageVsystemRoute`. -/
theorem reconcile_notFound_still_manages_route :
    ∀ m : SdiObserver → SDIObserverSpecRoute → Option KubeError,
    Reconcile (.error .notFound) m = Reconcile (.ok SdiObserver.zero) m ∧
    (Reconcile (.error .notFound) m).2 =
      m SdiObserver.zero SdiObserver.zero.spec.vsystemRoute := by
  intro m
  exact ⟨rfl, rfl⟩

/-- C10: `Start` always returns `nil`: for every controller state and every
outcome of the embedded controller's run loop the error component of `Start`
is `none`, and a run-loop failure is only appended to the log. -/
theorem start_always_returns_nil :
    ∀ (c : dhController) (innerRunResult : Option KubeError),
    (c.Start innerRunResult).2 = none ∧
    (∀ e : KubeError, (c.Start (some e)).1.logs =
      c.logs ++ ["(*dhController).manageDhs: controller terminated"]) := by
  intro c innerRunResult
  constructor
  · cases innerRunResult <;> rfl
  · intro e
    simp [dhController.Start, dhController.startFactories]

end SapDiObserver
